import Mathlib

/-!
Shallow embedding of `argh/assembling.py` (the assembling module of the
`argh` library): the signature inferencer `_get_args_from_signature`,
`set_default_command` and `add_commands`, together with the auxiliary
state they act on.  Python parsers are modelled by an explicit tree type,
exceptions by an error component in the result, so that a call raising
mid-way still reports the mutations it performed before the raise (Python
exceptions do not roll back mutations already made on the parser object).
-/

namespace Argh

/-- Python values as they occur in this module: default values and
annotation entries (`isinstance(v, str)` is the only test performed). -/
inductive PyValue : Type where
  | none
  | bool (b : Bool)
  | int (n : Int)
  | str (s : String)
  deriving DecidableEq, Repr

/-- One `(oargs, okwargs)` pair yielded by `_get_args_from_signature` or
stored in the `ATTR_ARGS` attribute: positional arguments of
`add_argument` plus the two keyword arguments this module ever sets
(`help=` and `default=`; a missing key is `Option.none`). -/
structure SpecPair : Type where
  oargs : List String
  help : Option String
  default : Option PyValue
  deriving DecidableEq, Repr

/-- The static metadata of a Python function as read by `assembling.py`:
`__name__`, `__doc__`, `inspect.getfullargspec` (`args` and `defaults`),
`__annotations__` (field `anns`), and the attributes
`ATTR_INFER_ARGS_FROM_SIGNATURE`, `ATTR_ARGS` (field `declaredArgs`),
`ATTR_NAME` (field `attrName`, `Option.none` when absent) and
`ATTR_ALIASES`. -/
structure Func : Type where
  name : String
  doc : Option String
  args : List String
  defaults : List PyValue
  anns : List (String × PyValue)
  inferArgsFromSignature : Bool
  declaredArgs : List SpecPair
  attrName : Option String
  aliases : List String
  deriving DecidableEq, Repr

/-- The bookkeeping argparse stores per choice added with `add_parser`:
the command name and the `help=` / `aliases=` keyword arguments
(`aliases` is `Option.none` when the keyword was not passed at all). -/
structure SubInfo : Type where
  name : String
  help : Option String
  aliases : Option (List String)
  deriving DecidableEq, Repr

/-- An `argparse.ArgumentParser` as observed by `assembling.py`:
`description`, the `function` entry of `_defaults` (set by
`set_defaults(function=...)`), the subparsers container `_subparsers`
(`Option.none` until `add_subparsers` is called) with the `title`,
`description` and `help` keyword arguments it was created with, and the
list of argument specs registered through `add_argument`. -/
inductive Parser : Type where
  | mk (description : Option String)
       (defaultFn : Option Func)
       (subs : Option (List (SubInfo × Parser)))
       (subsTitle : Option String)
       (subsDescr : Option String)
       (subsHelp : Option String)
       (arguments : List SpecPair)

/-- The two error kinds of the assembling module: `StructuralConflict`
(the `RuntimeError`s) and `ArgumentMisuse` (the failed `assert`). -/
inductive Err : Type where
  | structuralConflict
  | argumentMisuse
  deriving DecidableEq, Repr

def Parser.description : Parser → Option String
  | .mk d _ _ _ _ _ _ => d

def Parser.defaultFn : Parser → Option Func
  | .mk _ f _ _ _ _ _ => f

def Parser.subs : Parser → Option (List (SubInfo × Parser))
  | .mk _ _ s _ _ _ _ => s

def Parser.subsTitle : Parser → Option String
  | .mk _ _ _ t _ _ _ => t

def Parser.subsDescr : Parser → Option String
  | .mk _ _ _ _ d _ _ => d

def Parser.subsHelp : Parser → Option String
  | .mk _ _ _ _ _ h _ => h

def Parser.arguments : Parser → List SpecPair
  | .mk _ _ _ _ _ _ a => a

def Parser.withSubs : Parser → Option (List (SubInfo × Parser)) → Parser
  | .mk d f _ t de h a, s => .mk d f s t de h a

def Parser.withDescription : Parser → Option String → Parser
  | .mk _ f s t de h a, d => .mk d f s t de h a

def Parser.withDefaultFn : Parser → Option Func → Parser
  | .mk d _ s t de h a, f => .mk d f s t de h a

/-- The `for a_args, a_kwargs in command_args: parser.add_argument(...)`
loop: each spec is recorded on the parser in order. -/
def Parser.addArguments : Parser → List SpecPair → Parser
  | .mk d f s t de h a, specs => .mk d f s t de h (a ++ specs)

/-- Entries of the subparsers container (`[]` when `_subparsers` is not
yet created). -/
def Parser.subsEntries (p : Parser) : List (SubInfo × Parser) :=
  p.subs.getD []

/-- Python truthiness of the `None`-or-string values this module tests
(`if namespace:`, `any([title, description, help])`,
`function.__doc__ and not parser.description`): `None` and the empty
string are falsy. -/
def pyTruthy : Option String → Bool
  | Option.none => false
  | some s => !s.isEmpty

/-- The parser created by `subparsers.add_parser(...)` before
`set_default_command` touches it: fresh, no description, no default
function, no subparsers, no arguments. -/
def newChild : Parser :=
  Parser.mk Option.none Option.none Option.none Option.none Option.none Option.none []

/-- `kwargs = dict(zip(*[reversed(x) for x in (spec.args, spec.defaults or [])]))`
from `_get_args_from_signature`: the association of argument names to
default values, pairing the reversed name list with the reversed default
list. -/
def sigKwargs (f : Func) : List (String × PyValue) :=
  List.zip f.args.reverse f.defaults.reverse

/-- `annotations = dict((k,v) for k,v in function.__annotations__.items()
if isinstance(v, str))` (the PY3 branch). -/
def strAnns (f : Func) : List (String × String) :=
  f.anns.filterMap (fun kv =>
    match kv.2 with
    | PyValue.str s => some (kv.1, s)
    | _ => Option.none)

/-- `chars = [a[0] for a in spec.args]`: the first characters of ALL
declared parameter names. -/
def sigChars (f : Func) : List Char :=
  f.args.map (fun a => a.front)

/-- `conflicting_opts`: the characters occurring more than once among
`sigChars` (the code iterates the key set of `char_counts`, so each
conflicting character appears once). -/
def conflictingOpts (f : Func) : List Char :=
  (sigChars f).dedup.filter (fun c => 1 < (sigChars f).count c)

/-- The body of the `for name in spec.args:` loop of
`_get_args_from_signature`: the spec yielded for one parameter name. -/
def inferOne (f : Func) (name : String) : SpecPair :=
  match (sigKwargs f).lookup name with
  | some d =>
      { oargs := if name.front ∈ conflictingOpts f
                 then ["--" ++ name]
                 else ["-" ++ String.singleton name.front, "--" ++ name],
        help := (strAnns f).lookup name,
        default := some d }
  | Option.none =>
      { oargs := [name],
        help := (strAnns f).lookup name,
        default := Option.none }

/-- `_get_args_from_signature(function)`, consumed into a list: returns
nothing unless `ATTR_INFER_ARGS_FROM_SIGNATURE` is set, otherwise yields
one spec per declared parameter, in declaration order. -/
def getArgsFromSignature (f : Func) : List SpecPair :=
  if f.inferArgsFromSignature then f.args.map (inferOne f) else []

/-- `if function.__doc__ and not parser.description:
parser.description = function.__doc__` from `set_default_command`. -/
def Parser.maybeSetDescription (p : Parser) (doc : Option String) : Parser :=
  if pyTruthy doc && !(pyTruthy p.description) then p.withDescription doc else p

/-- `set_default_command(parser, function)`.  The second component is the
exception raised (if any); the first is the parser with every mutation
performed before the raise (both raises happen before any mutation). -/
def setDefaultCommand (p : Parser) (f : Func) : Parser × Option Err :=
  if p.subs.isSome then
    (p, some Err.structuralConflict)
  else if !(getArgsFromSignature f).isEmpty && !f.declaredArgs.isEmpty then
    (p, some Err.structuralConflict)
  else
    (((p.addArguments (if (getArgsFromSignature f).isEmpty
                       then f.declaredArgs
                       else getArgsFromSignature f)).maybeSetDescription
        f.doc).withDefaultFn (some f),
     Option.none)

/-- `s.replace('_','-')`: for a single-character pattern Python's
`str.replace` is exactly the character-wise substitution. -/
def replaceUnderscores (s : String) : String :=
  String.mk (s.data.map (fun c => if c = '_' then '-' else c))

/-- `cmd_name = getattr(func, ATTR_NAME, func.__name__.replace('_','-'))`. -/
def cmdName (f : Func) : String :=
  match f.attrName with
  | some n => n
  | Option.none => replaceUnderscores f.name

/-- The `add_parser` bookkeeping for one function in the `add_commands`
loop: `help=func.__doc__`, and `aliases=getattr(func, ATTR_ALIASES, [])`
only when `SUPPORTS_ALIASES` holds. -/
def cmdInfo (sa : Bool) (f : Func) : SubInfo :=
  { name := cmdName f,
    help := f.doc,
    aliases := if sa then some f.aliases else Option.none }

/-- The `for func in functions:` loop of `add_commands`: each function
gets a fresh child parser registered in the container, then
`set_default_command` runs on that child; an exception stops the loop,
leaving every entry registered so far (including the failing function's
child parser, which `add_parser` registered before the raise). -/
def registerFunctions (sa : Bool) (entries : List (SubInfo × Parser)) :
    List Func → List (SubInfo × Parser) × Option Err
  | [] => (entries, Option.none)
  | f :: rest =>
      match setDefaultCommand newChild f with
      | (child, Option.none) =>
          registerFunctions sa (entries ++ [(cmdInfo sa f, child)]) rest
      | (child, some e) =>
          (entries ++ [(cmdInfo sa f, child)], some e)

/-- Modelled from the spec: `argh.utils.get_subparsers(parser, create=True)`
is not under `src/`; per the spec it "obtains or lazily creates the
parser's subcommand container". -/
def getSubparsers (p : Parser) : Parser :=
  match p.subs with
  | some _ => p
  | Option.none => p.withSubs (some [])

/-- The `if namespace:` branch of `add_commands`: a placeholder subparser
named after the namespace is added (`help=title`), a second-level
subparsers container is created under it with the `title`, `description`
and `help` keyword arguments, and the functions are registered there. -/
def addCommandsNs (sa : Bool) (p1 : Parser) (functions : List Func)
    (nsp title descr hlp : Option String) : Parser × Option Err :=
  (p1.withSubs (some (p1.subsEntries ++
      [({ name := nsp.getD "", help := title, aliases := Option.none },
        Parser.mk Option.none Option.none
          (some (registerFunctions sa [] functions).1) title descr hlp [])])),
   (registerFunctions sa [] functions).2)

/-- `add_commands(parser, functions, namespace, title, description, help)`
with the process-wide `SUPPORTS_ALIASES` capability passed in as `sa`. -/
def addCommands (sa : Bool) (p : Parser) (functions : List Func)
    (nsp title descr hlp : Option String) : Parser × Option Err :=
  if p.defaultFn.isSome then
    (p, some Err.structuralConflict)
  else if pyTruthy nsp then
    addCommandsNs sa (getSubparsers p) functions nsp title descr hlp
  else if pyTruthy title || pyTruthy descr || pyTruthy hlp then
    (getSubparsers p, some Err.argumentMisuse)
  else
    ((getSubparsers p).withSubs
       (some (registerFunctions sa (getSubparsers p).subsEntries functions).1),
     (registerFunctions sa (getSubparsers p).subsEntries functions).2)

/-- The success condition of `set_default_command` on the fresh child
parser created by `add_parser`: the function must not combine a
non-empty inferred spec list with declared specs. -/
def noSpecConflict (f : Func) : Bool :=
  (getArgsFromSignature f).isEmpty || f.declaredArgs.isEmpty

/-- The registration record the loop produces for a conflict-free
function: the `add_parser` bookkeeping plus the child parser with the
function bound. -/
def goodEntry (sa : Bool) (f : Func) : SubInfo × Parser :=
  (cmdInfo sa f, (setDefaultCommand newChild f).1)

/-- Modelled from the spec words of the collision rule (for comparison
with `conflictingOpts`, which the code computes from ALL declared
parameter names): the first characters occurring more than once among
the DEFAULTED parameter names only, i.e. among the last
`defaults.length` parameters. -/
def specConflictingOpts (f : Func) : List Char :=
  ((f.args.drop (f.args.length - f.defaults.length)).map
      (fun a => a.front)).dedup.filter
    (fun c => 1 < ((f.args.drop (f.args.length - f.defaults.length)).map
      (fun a => a.front)).count c)

/-! ## Concrete example data used by witnesses and counterexamples -/

/-- A freshly constructed `argparse.ArgumentParser()`: no description, no
default function, no subparsers, no arguments. -/
def rootP : Parser :=
  Parser.mk Option.none Option.none Option.none Option.none Option.none Option.none []

/-- A parser on which `add_subparsers()` has already been called. -/
def dispatcherP : Parser :=
  Parser.mk Option.none Option.none (some []) Option.none Option.none Option.none []

/-- A function with no metadata at all. -/
def fPlain : Func :=
  { name := "f", doc := Option.none, args := [], defaults := [],
    anns := [], inferArgsFromSignature := false, declaredArgs := [],
    attrName := Option.none, aliases := [] }

/-- A function with docstring `"Y"` and nothing else. -/
def fDocY : Func :=
  { name := "f", doc := some "Y", args := [], defaults := [],
    anns := [], inferArgsFromSignature := false, declaredArgs := [],
    attrName := Option.none, aliases := [] }

/-- A parser whose description is already `"X"`. -/
def descrXP : Parser :=
  Parser.mk (some "X") Option.none Option.none Option.none Option.none Option.none []

/-- A parser with a default-bound function. -/
def singleCmdP : Parser :=
  Parser.mk Option.none (some fPlain) Option.none Option.none Option.none Option.none []

/-- `def good_cmd(x): ...` opted into signature inference, no declared
specs: binds cleanly. -/
def fOK : Func :=
  { name := "good_cmd", doc := Option.none, args := ["x"], defaults := [],
    anns := [], inferArgsFromSignature := true, declaredArgs := [],
    attrName := Option.none, aliases := [] }

/-- `def bad_cmd(y): ...` opted into signature inference AND carrying a
declared `@arg` spec: `set_default_command` raises on it. -/
def fBad : Func :=
  { name := "bad_cmd", doc := Option.none, args := ["y"], defaults := [],
    anns := [], inferArgsFromSignature := true,
    declaredArgs := [{ oargs := ["--z"], help := Option.none, default := Option.none }],
    attrName := Option.none, aliases := [] }

/-- `def greet(name, excited=False)` with a string annotation on `name`,
opted into signature inference. -/
def exGreet : Func :=
  { name := "greet", doc := some "Say hello",
    args := ["name", "excited"], defaults := [PyValue.bool false],
    anns := [("name", PyValue.str "whom to greet")],
    inferArgsFromSignature := true, declaredArgs := [],
    attrName := Option.none, aliases := [] }

/-- `def p(name, nice=False)`: the positional `name` shares the first
character `n` with the defaulted `nice`. -/
def exPosClash : Func :=
  { name := "p", doc := Option.none,
    args := ["name", "nice"], defaults := [PyValue.bool false],
    anns := [], inferArgsFromSignature := true, declaredArgs := [],
    attrName := Option.none, aliases := [] }

/-- `def three(x, bar=1, baz=2)`, opted into signature inference: two
defaulted parameters whose names share the first character `b`. -/
def exThree : Func :=
  { name := "three", doc := Option.none,
    args := ["x", "bar", "baz"], defaults := [PyValue.int 1, PyValue.int 2],
    anns := [], inferArgsFromSignature := true, declaredArgs := [],
    attrName := Option.none, aliases := [] }

/-- `def fetch_all(): ...` with no explicit name override. -/
def fetchAll : Func :=
  { name := "fetch_all", doc := Option.none, args := [], defaults := [],
    anns := [], inferArgsFromSignature := false, declaredArgs := [],
    attrName := Option.none, aliases := [] }

/-- `def fetch_one(): ...` with the explicit name override `get-one`. -/
def fetchOne : Func :=
  { name := "fetch_one", doc := Option.none, args := [], defaults := [],
    anns := [], inferArgsFromSignature := false, declaredArgs := [],
    attrName := some "get-one", aliases := [] }

/-! ## Projection lemmas for the parser state -/

theorem description_withDefaultFn (p : Parser) (f : Option Func) :
    (p.withDefaultFn f).description = p.description := by
  cases p; rfl

theorem description_withDescription (p : Parser) (d : Option String) :
    (p.withDescription d).description = d := by
  cases p; rfl

theorem description_addArguments (p : Parser) (s : List SpecPair) :
    (p.addArguments s).description = p.description := by
  cases p; rfl

theorem arguments_withDefaultFn (p : Parser) (f : Option Func) :
    (p.withDefaultFn f).arguments = p.arguments := by
  cases p; rfl

theorem arguments_withDescription (p : Parser) (d : Option String) :
    (p.withDescription d).arguments = p.arguments := by
  cases p; rfl

theorem arguments_addArguments (p : Parser) (s : List SpecPair) :
    (p.addArguments s).arguments = p.arguments ++ s := by
  cases p; rfl

theorem arguments_maybeSetDescription (p : Parser) (d : Option String) :
    (p.maybeSetDescription d).arguments = p.arguments := by
  unfold Parser.maybeSetDescription
  split
  · exact arguments_withDescription p d
  · rfl

theorem description_maybeSetDescription_of_truthy (p : Parser) (d : Option String)
    (h : pyTruthy p.description = true) :
    (p.maybeSetDescription d).description = p.description := by
  unfold Parser.maybeSetDescription
  rw [h]
  simp

theorem subsEntries_withSubs (p : Parser) (l : List (SubInfo × Parser)) :
    (p.withSubs (some l)).subsEntries = l := by
  cases p; rfl

theorem subsEntries_getSubparsers (p : Parser) :
    (getSubparsers p).subsEntries = p.subsEntries := by
  unfold getSubparsers
  cases p with
  | mk d f s t de h a =>
    cases s <;> rfl

theorem defaultFn_getSubparsers (p : Parser) :
    (getSubparsers p).defaultFn = p.defaultFn := by
  unfold getSubparsers
  cases p with
  | mk d f s t de h a =>
    cases s <;> rfl

/-! ## Claim C4 -/

/-- Claim C4: for every parser that already has any subcommands attached
and every function, `set_default_command` fails with `StructuralConflict`
and does not register the function or its argument specs on the parser
(the parser is returned unchanged). -/
theorem C4_default_on_subparsers_conflict (p : Parser) (f : Func)
    (hs : p.subs.isSome = true) :
    setDefaultCommand p f = (p, some Err.structuralConflict) := by
  unfold setDefaultCommand
  rw [hs]
  simp

/-- Concrete run of the C4 theorem: a parser with an (empty) subparsers
container rejects any default-command binding. -/
theorem C4_witness :
    dispatcherP.subs.isSome = true ∧
    setDefaultCommand dispatcherP fPlain = (dispatcherP, some Err.structuralConflict) :=
  ⟨rfl, C4_default_on_subparsers_conflict dispatcherP fPlain rfl⟩

/-! ## Claim C5 -/

/-- Claim C5: for every parser that already has a default-bound function,
`add_commands` fails with `StructuralConflict` regardless of the
functions, namespace or other parameters supplied, and the parser is
returned unchanged. -/
theorem C5_add_commands_mode_conflict (sa : Bool) (p : Parser)
    (fs : List Func) (nsp title descr hlp : Option String)
    (hdf : p.defaultFn.isSome = true) :
    addCommands sa p fs nsp title descr hlp = (p, some Err.structuralConflict) := by
  unfold addCommands
  rw [hdf]
  simp

/-- Concrete run of the C5 theorem: a parser whose default function is
bound rejects `add_commands` with every other parameter varied. -/
theorem C5_witness :
    singleCmdP.defaultFn.isSome = true ∧
    addCommands false singleCmdP [fOK] (some "ns") (some "t") (some "d") (some "h") =
      (singleCmdP, some Err.structuralConflict) :=
  ⟨rfl,
   C5_add_commands_mode_conflict false singleCmdP [fOK]
     (some "ns") (some "t") (some "d") (some "h") rfl⟩

/-! ## Claim C3 -/

/-- Claim C3: on a parser that passed the subparsers check, binding a
function whose signature inference produced a non-empty spec list fails
with `StructuralConflict` when the function also carries explicitly
declared specs; when the inferred list is empty, the explicitly declared
specs (possibly empty) are registered instead, without error. -/
theorem C3_declared_vs_inferred (p : Parser) (f : Func)
    (hs : p.subs.isSome = false) :
    ((getArgsFromSignature f).isEmpty = false → f.declaredArgs.isEmpty = false →
       setDefaultCommand p f = (p, some Err.structuralConflict)) ∧
    ((getArgsFromSignature f).isEmpty = true →
       (setDefaultCommand p f).2 = Option.none ∧
       (setDefaultCommand p f).1.arguments = p.arguments ++ f.declaredArgs) := by
  constructor
  · intro hinf hdecl
    unfold setDefaultCommand
    rw [hs, hinf, hdecl]
    simp
  · intro hinf
    unfold setDefaultCommand
    rw [hs, hinf]
    simp only [Bool.not_true, Bool.false_and, Bool.false_eq_true, if_false, if_true]
    refine ⟨trivial, ?_⟩
    rw [arguments_withDefaultFn, arguments_maybeSetDescription, arguments_addArguments]

/-- Concrete run of the C3 theorem: a function with both inferred and
declared specs is rejected on a fresh parser. -/
theorem C3_witness :
    rootP.subs.isSome = false ∧
    (getArgsFromSignature fBad).isEmpty = false ∧
    fBad.declaredArgs.isEmpty = false ∧
    setDefaultCommand rootP fBad = (rootP, some Err.structuralConflict) :=
  ⟨rfl, rfl, rfl, (C3_declared_vs_inferred rootP fBad rfl).1 rfl rfl⟩

/-! ## Claim C8 -/

/-- Claim C8: `set_default_command` never overwrites a non-empty parser
description, whatever the function; and on a successful binding the
function's docstring becomes the description exactly when the parser had
no (truthy) description yet and the docstring is non-empty. -/
theorem C8_description_not_overwritten (p : Parser) (f : Func) :
    (pyTruthy p.description = true →
       (setDefaultCommand p f).1.description = p.description) ∧
    (p.subs.isSome = false →
     (!(getArgsFromSignature f).isEmpty && !f.declaredArgs.isEmpty) = false →
     pyTruthy p.description = false → pyTruthy f.doc = true →
       (setDefaultCommand p f).1.description = f.doc) := by
  constructor
  · intro hd
    unfold setDefaultCommand
    split
    · rfl
    · split
      · rfl
      · rw [description_withDefaultFn,
            description_maybeSetDescription_of_truthy _ _
              (by rw [description_addArguments]; exact hd),
            description_addArguments]
  · intro hs hc hd hdoc
    unfold setDefaultCommand
    rw [hs, hc]
    simp only [Bool.false_eq_true, if_false]
    rw [description_withDefaultFn]
    unfold Parser.maybeSetDescription
    rw [description_addArguments, hd, hdoc]
    simp only [Bool.not_false, Bool.and_true, if_true]
    exact description_withDescription _ _

/-- Concrete run of the C8 theorem: a parser with description `"X"` keeps
it when binding a function with docstring `"Y"`. -/
theorem C8_witness :
    pyTruthy descrXP.description = true ∧
    ((setDefaultCommand descrXP fDocY).1).description = descrXP.description :=
  ⟨rfl, (C8_description_not_overwritten descrXP fDocY).1 rfl⟩

/-! ## The add-commands registration loop -/

theorem setDefaultCommand_newChild_clean (f : Func) (h : noSpecConflict f = true) :
    (setDefaultCommand newChild f).2 = Option.none := by
  unfold noSpecConflict at h
  unfold setDefaultCommand
  have hs : newChild.subs.isSome = false := rfl
  rw [hs]
  rcases Bool.or_eq_true_iff.mp h with h1 | h1 <;> rw [h1] <;> simp

theorem setDefaultCommand_newChild_bad (f : Func) (h : noSpecConflict f = false) :
    setDefaultCommand newChild f = (newChild, some Err.structuralConflict) := by
  unfold noSpecConflict at h
  rw [Bool.or_eq_false_iff] at h
  unfold setDefaultCommand
  have hs : newChild.subs.isSome = false := rfl
  rw [hs, h.1, h.2]
  simp

theorem registerFunctions_clean (sa : Bool) (fs : List Func)
    (h : ∀ f ∈ fs, noSpecConflict f = true) :
    ∀ entries, registerFunctions sa entries fs =
      (entries ++ fs.map (goodEntry sa), Option.none) := by
  induction fs with
  | nil => intro entries; simp [registerFunctions]
  | cons f rest ih =>
    intro entries
    have hf : noSpecConflict f = true := h f (List.mem_cons_self f rest)
    have hrest : ∀ g ∈ rest, noSpecConflict g = true :=
      fun g hg => h g (List.mem_cons_of_mem f hg)
    have h2 := setDefaultCommand_newChild_clean f hf
    unfold registerFunctions
    rcases hsd : setDefaultCommand newChild f with ⟨child, err⟩
    rw [hsd] at h2
    simp only at h2
    subst h2
    simp only
    rw [ih hrest (entries ++ [(cmdInfo sa f, child)])]
    simp [goodEntry, hsd]

theorem registerFunctions_bad (sa : Bool) (pre rest : List Func) (bad : Func)
    (hpre : ∀ g ∈ pre, noSpecConflict g = true) (hbad : noSpecConflict bad = false) :
    ∀ entries, registerFunctions sa entries (pre ++ bad :: rest) =
      (entries ++ pre.map (goodEntry sa) ++ [(cmdInfo sa bad, newChild)],
       some Err.structuralConflict) := by
  induction pre with
  | nil =>
    intro entries
    simp only [List.nil_append, List.map_nil, List.append_nil]
    unfold registerFunctions
    rw [setDefaultCommand_newChild_bad bad hbad]
  | cons g pre ih =>
    intro entries
    have hg : noSpecConflict g = true := hpre g (List.mem_cons_self g pre)
    have hpre2 : ∀ x ∈ pre, noSpecConflict x = true :=
      fun x hx => hpre x (List.mem_cons_of_mem g hx)
    have h2 := setDefaultCommand_newChild_clean g hg
    simp only [List.cons_append]
    unfold registerFunctions
    rcases hsd : setDefaultCommand newChild g with ⟨child, err⟩
    rw [hsd] at h2
    simp only at h2
    subst h2
    simp only
    rw [ih hpre2 (entries ++ [(cmdInfo sa g, child)])]
    simp [goodEntry, hsd]

/-! ## Claim C6 -/

/-- Claim C6: for a call to `add_commands` with `namespace` omitted, on a
parser that is not already default-bound: if any of `title`,
`description` or `help` is non-empty the call fails with
`ArgumentMisuse` (having only created the subparsers container); if all
three are empty the call is not rejected by that check — with
conflict-free functions it completes without error. -/
theorem C6_namespace_kwargs_misuse (sa : Bool) (p : Parser) (fs : List Func)
    (title descr hlp : Option String) (hdf : p.defaultFn.isSome = false) :
    ((pyTruthy title || pyTruthy descr || pyTruthy hlp) = true →
       addCommands sa p fs Option.none title descr hlp =
         (getSubparsers p, some Err.argumentMisuse)) ∧
    (pyTruthy title = false → pyTruthy descr = false → pyTruthy hlp = false →
     (∀ f ∈ fs, noSpecConflict f = true) →
       (addCommands sa p fs Option.none title descr hlp).2 = Option.none) := by
  constructor
  · intro hc
    unfold addCommands
    rw [hdf, hc]
    simp [pyTruthy]
  · intro ht hd hh hclean
    unfold addCommands
    rw [hdf, ht, hd, hh]
    simp only [pyTruthy, Bool.false_eq_true, if_false, Bool.or_self]
    rw [registerFunctions_clean sa fs hclean]

/-- Concrete run of the C6 theorem: `title` set without a namespace is
rejected with `ArgumentMisuse` on a fresh parser. -/
theorem C6_witness :
    rootP.defaultFn.isSome = false ∧
    (pyTruthy (some "T") || pyTruthy Option.none || pyTruthy Option.none) = true ∧
    addCommands true rootP [fOK] Option.none (some "T") Option.none Option.none =
      (getSubparsers rootP, some Err.argumentMisuse) :=
  ⟨rfl, rfl,
   (C6_namespace_kwargs_misuse true rootP [fOK] (some "T") Option.none Option.none rfl).1 rfl⟩

/-! ## Claim C2 -/

/-- Claim C2 counterexample: `add_commands` on a fresh parser with
`[fOK, fBad]` raises `StructuralConflict` (because of `fBad`), yet `fOK`
has been registered as a subcommand with its handler bound — the failing
call is not free of partial effects, contradicting the claim that a
raising call registers no function from the list. -/
theorem C2_counterexample :
    (addCommands true rootP [fOK, fBad]
        Option.none Option.none Option.none Option.none).2 =
      some Err.structuralConflict ∧
    ((addCommands true rootP [fOK, fBad]
        Option.none Option.none Option.none Option.none).1).subsEntries.map
        (fun e => (e.1.name, e.2.defaultFn)) =
      [("good-cmd", some fOK), ("bad-cmd", Option.none)] :=
  ⟨by rfl, by rfl⟩

/-- Claim C2 amended: the failures `add_commands` checks before its
registration loop are free of partial registration — a default-bound
parser is rejected with the parser unchanged, and namespace-parameter
misuse is rejected with no function registered (only the subparsers
container created) — but a declared-plus-inferred conflict is raised
per function inside the loop: the functions before the failing one stay
fully registered, and the failing function's child parser itself has
been added (without a bound handler) before the raise. -/
theorem C2_amended_assembly_atomicity (sa : Bool) (p : Parser)
    (fs pre rest : List Func) (bad : Func) (nsp title descr hlp : Option String) :
    (p.defaultFn.isSome = true →
       addCommands sa p fs nsp title descr hlp = (p, some Err.structuralConflict)) ∧
    (p.defaultFn.isSome = false → pyTruthy nsp = false →
     (pyTruthy title || pyTruthy descr || pyTruthy hlp) = true →
       addCommands sa p fs nsp title descr hlp =
         (getSubparsers p, some Err.argumentMisuse)) ∧
    (p.defaultFn.isSome = false → pyTruthy nsp = false →
     pyTruthy title = false → pyTruthy descr = false → pyTruthy hlp = false →
     fs = pre ++ bad :: rest →
     (∀ g ∈ pre, noSpecConflict g = true) → noSpecConflict bad = false →
       addCommands sa p fs nsp title descr hlp =
         ((getSubparsers p).withSubs
            (some (p.subsEntries ++ pre.map (goodEntry sa) ++
              [(cmdInfo sa bad, newChild)])),
          some Err.structuralConflict)) := by
  refine ⟨?_, ?_, ?_⟩
  · intro hdf
    unfold addCommands
    rw [hdf]
    simp
  · intro hdf hns hc
    unfold addCommands
    rw [hdf, hns, hc]
    simp
  · intro hdf hns ht hd hh hfs hpre hbad
    unfold addCommands
    rw [hdf, hns, ht, hd, hh]
    simp only [Bool.false_eq_true, if_false, Bool.or_self]
    rw [hfs, registerFunctions_bad sa pre rest bad hpre hbad,
        subsEntries_getSubparsers]

/-- Concrete run of the amended C2 theorem, loop part: on a fresh parser,
`[fOK, fBad]` fails with `StructuralConflict` and the result still holds
the fully registered `fOK` entry. -/
theorem C2_amended_witness :
    addCommands true rootP [fOK, fBad]
        Option.none Option.none Option.none Option.none =
      ((getSubparsers rootP).withSubs
         (some (rootP.subsEntries ++ [fOK].map (goodEntry true) ++
           [(cmdInfo true fBad, newChild)])),
       some Err.structuralConflict) :=
  (C2_amended_assembly_atomicity true rootP [fOK, fBad] [fOK] [] fBad
      Option.none Option.none Option.none Option.none).2.2
    rfl rfl rfl rfl rfl rfl
    (by intro g hg; rcases List.mem_singleton.mp hg with rfl; rfl) rfl

/-! ## Claim C9 -/

/-- Claim C9: every function registered by `add_commands` is registered
under its explicit name override when one is present, and otherwise
under its identifier with every underscore replaced by a hyphen. -/
theorem C9_command_naming (sa : Bool) (p : Parser) (fs : List Func)
    (hdf : p.defaultFn.isSome = false)
    (hclean : ∀ f ∈ fs, noSpecConflict f = true) :
    ((addCommands sa p fs Option.none Option.none Option.none
        Option.none).1).subsEntries.map (fun e => e.1.name) =
      p.subsEntries.map (fun e => e.1.name) ++
      fs.map (fun f =>
        match f.attrName with
        | some n => n
        | Option.none => String.mk (f.name.data.map
            (fun c => if c = '_' then '-' else c))) := by
  unfold addCommands
  rw [hdf]
  simp only [pyTruthy, Bool.false_eq_true, if_false, Bool.or_self]
  rw [registerFunctions_clean sa fs hclean, subsEntries_withSubs,
      subsEntries_getSubparsers]
  simp only [List.map_append, List.map_map]
  rfl

/-- Concrete run of the C9 theorem: `fetch_all` (no override) and
`fetch_one` (override `get-one`) come out as `fetch-all` and `get-one`. -/
theorem C9_witness :
    rootP.defaultFn.isSome = false ∧
    ((addCommands true rootP [fetchAll, fetchOne] Option.none Option.none
        Option.none Option.none).1).subsEntries.map (fun e => e.1.name) =
      rootP.subsEntries.map (fun e => e.1.name) ++
      [fetchAll, fetchOne].map (fun f =>
        match f.attrName with
        | some n => n
        | Option.none => String.mk (f.name.data.map
            (fun c => if c = '_' then '-' else c))) :=
  ⟨rfl,
   C9_command_naming true rootP [fetchAll, fetchOne] rfl
     (by
       intro f hf
       rcases List.mem_cons.mp hf with rfl | hf
       · rfl
       · rcases List.mem_singleton.mp hf with rfl
         rfl)⟩

/-! ## Characterization of the signature inferencer -/

theorem lookup_of_mem {α β : Type} [BEq α] [LawfulBEq α]
    {l : List (α × β)} {a : α} {b : β}
    (hnd : (l.map Prod.fst).Nodup) (hm : (a, b) ∈ l) : l.lookup a = some b := by
  induction l with
  | nil => cases hm
  | cons hd tl ih =>
    obtain ⟨k, v⟩ := hd
    simp only [List.map_cons, List.nodup_cons] at hnd
    rw [List.lookup_cons]
    rcases List.mem_cons.mp hm with h | h
    · injection h with h1 h2
      subst h1
      subst h2
      simp
    · have ha : a ∈ tl.map Prod.fst := List.mem_map_of_mem Prod.fst h
      have hk : (a == k) = false := by
        rw [beq_eq_false_iff_ne]
        rintro rfl
        exact hnd.1 ha
      rw [hk]
      exact ih hnd.2 h

theorem map_fst_zip_eq_take {α β : Type} :
    ∀ (l : List α) (m : List β), (l.zip m).map Prod.fst = l.take m.length
  | [], _ => by simp
  | _ :: _, [] => by simp
  | a :: l, b :: m => by
    simp [List.zip_cons_cons, map_fst_zip_eq_take l m]

/-- The content of the `kwargs` dictionary built on line 55 of
`assembling.py`: the parameter at position `i` is a key exactly when it
is among the last `defaults.length` parameters, and it maps to the
default at the matching position counted from the end. -/
theorem sigKwargs_lookup (f : Func) (hk : f.defaults.length ≤ f.args.length)
    (hnd : f.args.Nodup) (i : Nat) (hi : i < f.args.length) :
    (sigKwargs f).lookup (f.args.get ⟨i, hi⟩) =
      if f.args.length - f.defaults.length ≤ i
      then f.defaults[i - (f.args.length - f.defaults.length)]?
      else Option.none := by
  have hlen : (sigKwargs f).length = f.defaults.length := by
    rw [sigKwargs, List.length_zip]
    simp
    omega
  by_cases hcase : f.args.length - f.defaults.length ≤ i
  · rw [if_pos hcase]
    have hj : i - (f.args.length - f.defaults.length) < f.defaults.length := by omega
    have hmem : (f.args.get ⟨i, hi⟩,
        f.defaults.get ⟨i - (f.args.length - f.defaults.length), hj⟩) ∈ sigKwargs f := by
      apply List.mem_iff_getElem?.mpr
      refine ⟨f.args.length - 1 - i, ?_⟩
      rw [sigKwargs]
      apply List.getElem?_zip_eq_some.mpr
      constructor
      · rw [List.getElem?_reverse
            (by simpa using (by omega : f.args.length - 1 - i < f.args.length))]
        have : f.args.length - 1 - (f.args.length - 1 - i) = i := by omega
        rw [this]
        simp [List.getElem?_eq_getElem hi]
      · rw [List.getElem?_reverse
            (by simpa using (by omega : f.args.length - 1 - i < f.defaults.length))]
        have : f.defaults.length - 1 - (f.args.length - 1 - i) =
            i - (f.args.length - f.defaults.length) := by omega
        rw [this]
        simp [List.getElem?_eq_getElem hj]
    have hkeys : ((sigKwargs f).map Prod.fst).Nodup := by
      rw [sigKwargs, map_fst_zip_eq_take]
      exact (List.take_sublist _ _).nodup (List.nodup_reverse.mpr hnd)
    rw [lookup_of_mem hkeys hmem]
    rw [List.getElem?_eq_getElem hj]
    simp
  · rw [if_neg hcase]
    apply List.lookup_eq_none_iff.mpr
    intro p hp
    obtain ⟨j, hjlen, hpj⟩ := List.mem_iff_getElem.mp hp
    rw [hlen] at hjlen
    have hzip : (sigKwargs f)[j]? = some p := by
      rw [List.getElem?_eq_getElem (by rw [hlen]; exact hjlen)]
      rw [hpj]
    rw [sigKwargs] at hzip
    obtain ⟨h1, h2⟩ := List.getElem?_zip_eq_some.mp hzip
    rw [List.getElem?_reverse
        (by simpa using (by omega : j < f.args.length))] at h1
    have hfst : p.1 = f.args.get ⟨f.args.length - 1 - j, by omega⟩ := by
      rw [List.getElem?_eq_getElem
          (by omega : f.args.length - 1 - j < f.args.length)] at h1
      simp at h1
      simp [h1.symm]
    simp only [bne_iff_ne, ne_eq]
    intro hcontra
    rw [hfst] at hcontra
    simp only [List.get_eq_getElem] at hcontra
    have hij : i = f.args.length - 1 - j :=
      (List.Nodup.getElem_inj_iff hnd).mp hcontra
    omega

/-- Membership in `conflicting_opts` is exactly "the first character
occurs more than once among ALL declared parameter names". -/
theorem mem_conflictingOpts (f : Func) (c : Char) :
    c ∈ conflictingOpts f ↔ 1 < (sigChars f).count c := by
  unfold conflictingOpts
  rw [List.mem_filter, List.mem_dedup]
  constructor
  · rintro ⟨-, h⟩
    exact of_decide_eq_true h
  · intro h
    exact ⟨List.count_pos_iff.mp (by omega), decide_eq_true h⟩

theorem getArgs_length (f : Func) (hopt : f.inferArgsFromSignature = true) :
    (getArgsFromSignature f).length = f.args.length := by
  simp [getArgsFromSignature, hopt]

/-- Full characterization of the spec yielded for the parameter at
position `i` by `_get_args_from_signature`. -/
theorem getArgs_getElem (f : Func) (hopt : f.inferArgsFromSignature = true)
    (hk : f.defaults.length ≤ f.args.length) (hnd : f.args.Nodup)
    (i : Nat) (hi : i < f.args.length) :
    (getArgsFromSignature f)[i]? =
      some (if f.args.length - f.defaults.length ≤ i then
              { oargs := if 1 < (sigChars f).count ((f.args.get ⟨i, hi⟩).front)
                         then ["--" ++ f.args.get ⟨i, hi⟩]
                         else ["-" ++ String.singleton ((f.args.get ⟨i, hi⟩).front),
                               "--" ++ f.args.get ⟨i, hi⟩],
                help := (strAnns f).lookup (f.args.get ⟨i, hi⟩),
                default := f.defaults[i - (f.args.length - f.defaults.length)]? }
            else
              { oargs := [f.args.get ⟨i, hi⟩],
                help := (strAnns f).lookup (f.args.get ⟨i, hi⟩),
                default := Option.none }) := by
  unfold getArgsFromSignature
  rw [hopt]
  simp only [if_true, List.getElem?_map]
  rw [List.getElem?_eq_getElem hi]
  simp only [Option.map_some']
  unfold inferOne
  simp only [List.get_eq_getElem]
  have hlk := sigKwargs_lookup f hk hnd i hi
  simp only [List.get_eq_getElem] at hlk
  rw [hlk]
  by_cases hcase : f.args.length - f.defaults.length ≤ i
  · rw [if_pos hcase, if_pos hcase]
    have hj : i - (f.args.length - f.defaults.length) < f.defaults.length := by omega
    rw [List.getElem?_eq_getElem hj]
    simp only [List.get_eq_getElem]
    congr 1
    by_cases hc : 1 < (sigChars f).count ((f.args[i]).front)
    · rw [if_pos ((mem_conflictingOpts f _).mpr hc), if_pos hc]
    · rw [if_neg (fun hmem => hc ((mem_conflictingOpts f _).mp hmem)), if_neg hc]
  · rw [if_neg hcase, if_neg hcase]

/-! ## Claim C7 -/

/-- Claim C7: for every function opted into signature inference (with
sane Python metadata: at most one default per parameter, distinct
parameter names), the inferencer yields exactly one spec per declared
parameter, in order; a defaulted parameter yields the flag forms
`-<firstChar>` and `--<fullName>` (short form dropped under the
collision rule), its default value and its string-annotation help text;
a parameter without a default yields a single positional spec named
exactly after the parameter. -/
theorem C7_inference_shape (f : Func) (hopt : f.inferArgsFromSignature = true)
    (hk : f.defaults.length ≤ f.args.length) (hnd : f.args.Nodup) :
    (getArgsFromSignature f).length = f.args.length ∧
    ∀ i (hi : i < f.args.length),
      (getArgsFromSignature f)[i]? =
        some (if f.args.length - f.defaults.length ≤ i then
                { oargs := if 1 < (sigChars f).count ((f.args.get ⟨i, hi⟩).front)
                           then ["--" ++ f.args.get ⟨i, hi⟩]
                           else ["-" ++ String.singleton ((f.args.get ⟨i, hi⟩).front),
                                 "--" ++ f.args.get ⟨i, hi⟩],
                  help := (strAnns f).lookup (f.args.get ⟨i, hi⟩),
                  default := f.defaults[i - (f.args.length - f.defaults.length)]? }
              else
                { oargs := [f.args.get ⟨i, hi⟩],
                  help := (strAnns f).lookup (f.args.get ⟨i, hi⟩),
                  default := Option.none }) :=
  ⟨getArgs_length f hopt, fun i hi => getArgs_getElem f hopt hk hnd i hi⟩

/-- Concrete run of the C7 theorem on `def greet(name, excited=False)`
with annotation `name: "whom to greet"`. -/
theorem C7_witness :
    (exGreet.inferArgsFromSignature = true ∧
     exGreet.defaults.length ≤ exGreet.args.length ∧ exGreet.args.Nodup) ∧
    ((getArgsFromSignature exGreet).length = exGreet.args.length ∧
     ∀ i (hi : i < exGreet.args.length),
       (getArgsFromSignature exGreet)[i]? =
         some (if exGreet.args.length - exGreet.defaults.length ≤ i then
                 { oargs := if 1 < (sigChars exGreet).count
                                  ((exGreet.args.get ⟨i, hi⟩).front)
                            then ["--" ++ exGreet.args.get ⟨i, hi⟩]
                            else ["-" ++ String.singleton
                                    ((exGreet.args.get ⟨i, hi⟩).front),
                                  "--" ++ exGreet.args.get ⟨i, hi⟩],
                   help := (strAnns exGreet).lookup (exGreet.args.get ⟨i, hi⟩),
                   default := exGreet.defaults[i -
                     (exGreet.args.length - exGreet.defaults.length)]? }
               else
                 { oargs := [exGreet.args.get ⟨i, hi⟩],
                   help := (strAnns exGreet).lookup (exGreet.args.get ⟨i, hi⟩),
                   default := Option.none })) :=
  ⟨⟨rfl, by decide, by decide⟩,
   C7_inference_shape exGreet rfl (by decide) (by decide)⟩

/-! ## Claim C10 -/

/-- Claim C10: in signature inference a parameter is treated as having a
default value exactly when it is among the last `defaults.length`
declared parameters, and it is then paired with the default at the
matching position from the end (`i - (n - k)` in 0-based indexing from
the front). -/
theorem C10_defaults_pairing (f : Func) (hopt : f.inferArgsFromSignature = true)
    (hk : f.defaults.length ≤ f.args.length) (hnd : f.args.Nodup)
    (i : Nat) (hi : i < f.args.length) :
    ((getArgsFromSignature f)[i]?).map SpecPair.default =
      some (if f.args.length - f.defaults.length ≤ i
            then f.defaults[i - (f.args.length - f.defaults.length)]?
            else Option.none) := by
  rw [getArgs_getElem f hopt hk hnd i hi]
  simp only [Option.map_some']
  by_cases hcase : f.args.length - f.defaults.length ≤ i
  · rw [if_pos hcase, if_pos hcase]
  · rw [if_neg hcase, if_neg hcase]

/-- Concrete run of the C10 theorem on `def three(x, bar=1, baz=2)` at
position 2: `baz` pairs with the last default. -/
theorem C10_witness :
    (exThree.inferArgsFromSignature = true ∧
     exThree.defaults.length ≤ exThree.args.length ∧ exThree.args.Nodup ∧
     2 < exThree.args.length) ∧
    ((getArgsFromSignature exThree)[2]?).map SpecPair.default =
      some (if exThree.args.length - exThree.defaults.length ≤ 2
            then exThree.defaults[2 - (exThree.args.length - exThree.defaults.length)]?
            else Option.none) :=
  ⟨⟨rfl, by decide, by decide, by decide⟩,
   C10_defaults_pairing exThree rfl (by decide) (by decide) 2 (by decide)⟩

/-! ## Claim C1 -/

/-- Claim C1 counterexample: in `def p(name, nice=False)` the defaulted
parameter names are just `nice`, so by the claim's collision rule (count
over defaulted names only, positionals not participating) `nice` must
keep its short form `-n`; but the code counts the positional `name` too
and yields only the long form `--nice`. -/
theorem C1_counterexample :
    specConflictingOpts exPosClash = [] ∧
    getArgsFromSignature exPosClash =
      [{ oargs := ["name"], help := Option.none, default := Option.none },
       { oargs := ["--nice"], help := Option.none,
         default := some (PyValue.bool false) }] :=
  ⟨by rfl, by rfl⟩

/-- Claim C1 amended: the collision count ranges over the first
characters of ALL declared parameter names, positional ones included —
a defaulted parameter keeps its short form exactly when its first
character occurs at most once among all parameter names, so a positional
parameter sharing a first character with a defaulted one DOES cost the
defaulted parameter its short form.  (Only defaulted parameters ever
carry flag forms, so only they can lose one.) -/
theorem C1_amended_short_flag_collision (f : Func)
    (hopt : f.inferArgsFromSignature = true)
    (hk : f.defaults.length ≤ f.args.length) (hnd : f.args.Nodup)
    (i : Nat) (hi : i < f.args.length)
    (hdef : f.args.length - f.defaults.length ≤ i) :
    ((getArgsFromSignature f)[i]?).map SpecPair.oargs =
      some (if 1 < (sigChars f).count ((f.args.get ⟨i, hi⟩).front)
            then ["--" ++ f.args.get ⟨i, hi⟩]
            else ["-" ++ String.singleton ((f.args.get ⟨i, hi⟩).front),
                  "--" ++ f.args.get ⟨i, hi⟩]) := by
  rw [getArgs_getElem f hopt hk hnd i hi, if_pos hdef]
  simp only [Option.map_some']

/-- Concrete run of the amended C1 theorem on `def p(name, nice=False)`:
the defaulted `nice` loses `-n` because of the positional `name`. -/
theorem C1_amended_witness :
    (exPosClash.inferArgsFromSignature = true ∧
     exPosClash.defaults.length ≤ exPosClash.args.length ∧
     exPosClash.args.Nodup ∧ 1 < exPosClash.args.length ∧
     exPosClash.args.length - exPosClash.defaults.length ≤ 1) ∧
    ((getArgsFromSignature exPosClash)[1]?).map SpecPair.oargs =
      some (if 1 < (sigChars exPosClash).count
                  ((exPosClash.args.get ⟨1, by decide⟩).front)
            then ["--" ++ exPosClash.args.get ⟨1, by decide⟩]
            else ["-" ++ String.singleton
                    ((exPosClash.args.get ⟨1, by decide⟩).front),
                  "--" ++ exPosClash.args.get ⟨1, by decide⟩]) :=
  ⟨⟨rfl, by decide, by decide, by decide, by decide⟩,
   C1_amended_short_flag_collision exPosClash rfl (by decide) (by decide)
     1 (by decide) (by decide)⟩

end Argh
